import Mathlib

/-!
Shallow embedding of the `snake-cli-rs` sources (`src/points.rs`,
`src/direction.rs`, `src/snake.rs`, `src/game.rs`).

Conventions of the embedding:
* Rust `u16` values are modelled as `Nat`; the meaningful range is
  `0 ≤ v ≤ 65535` and theorems carry that bound as a hypothesis where the
  value of a computation depends on it.
* Rust `i16` values are modelled as `Int`; the casts `as i16` / `as u16`
  of the source are made explicit (`toI16`, `.emod 65536`), and
  two's-complement wrap-around (release-profile semantics) is used where
  the source arithmetic can overflow.
* A Rust `panic!` (including `Vec` index panics and `Option::unwrap` on
  `None`) is modelled as `none`; fallible operations return `Option`.
* The terminal handle (`stdout`), the terminal size and the random number
  generator are I/O state with no bearing on any claim and are omitted
  from the `Game` structure.
-/

/-- `Direction` from `src/direction.rs`: the four cardinal headings. -/
inductive Direction
  | Up
  | Right
  | Down
  | Left
deriving DecidableEq, Repr

/-- `Direction::opposite` from `src/direction.rs`. -/
def Direction.opposite : Direction → Direction
  | .Up => .Down
  | .Down => .Up
  | .Right => .Left
  | .Left => .Right

/-- `Point` from `src/points.rs`: a pair of `u16` grid coordinates. -/
structure Point where
  x : Nat
  y : Nat
deriving DecidableEq, Repr

/-- The Rust cast `n as i16` applied to a `u16`-ranged natural number:
the low 16 bits reinterpreted as a signed two's-complement value. -/
def toI16 (n : Nat) : Int :=
  if n % 65536 < 32768 then ((n % 65536 : Nat) : Int)
  else ((n % 65536 : Nat) : Int) - 65536

/-- Two's-complement `i16` negation (`-t` in Rust): wraps at `i16::MIN`,
where `-(-32768)` overflows back to `-32768` (release semantics). -/
def negI16 (t : Int) : Int :=
  if t = -32768 then -32768 else -t

/-- `Point::transform_value` from `src/points.rs` lines 98-104:
`if by.is_negative() && by.abs() as u16 > value { panic! } else
{ (value as i16 + by) as u16 }`.  For `by_` in the `i16` range,
`by.abs() as u16` equals `by_.natAbs` (including at `i16::MIN`, where the
`i16` wrap of `abs` and the `as u16` cast land on `32768 = natAbs`), and
the final expression is the low 16 bits of `value + by_`. -/
def Point.transform_value (value : Nat) (by_ : Int) : Option Nat :=
  if by_ < 0 ∧ value < by_.natAbs then none
  else some (((toI16 value + by_) % 65536).toNat)

/-- `Point::transform` from `src/points.rs` lines 82-96: `times` (a `u16`)
is cast to `i16`, turned into a signed offset pair for the direction, and
both coordinates are transformed; a panic in either coordinate is the
panic of the whole call. -/
def Point.transform (p : Point) (direction : Direction) (times : Nat) : Option Point :=
  let t : Int := toI16 times
  let transformation : Int × Int :=
    match direction with
    | .Up => (0, negI16 t)
    | .Right => (t, 0)
    | .Down => (0, t)
    | .Left => (negI16 t, 0)
  match Point.transform_value p.x transformation.1, Point.transform_value p.y transformation.2 with
  | some x, some y => some ⟨x, y⟩
  | _, _ => none

/-- `Snake` from `src/snake.rs`: body (head first), heading, and the
pending-growth (`digesting`) flag. -/
structure Snake where
  body : List Point
  direction : Direction
  digesting : Bool
deriving DecidableEq, Repr

/-- The `(0..length).map(|i| start.transform(opposite, i)).collect()`
iterator of `Snake::new`: builds the list `[f 0, f 1, …, f (n-1)]` and is
`none` as soon as any element panics. -/
def collectRange {α : Type} (f : Nat → Option α) : Nat → Option (List α)
  | 0 => some []
  | n + 1 =>
    match collectRange f n, f n with
    | some acc, some p => some (acc ++ [p])
    | _, _ => none

/-- `Snake::new` from `src/snake.rs` lines 84-93: lays `length` segments
behind `start` along `direction.opposite`, head first. -/
def Snake.new (start : Point) (length : Nat) (direction : Direction) : Option Snake :=
  match collectRange (fun i => start.transform direction.opposite i) length with
  | some body => some { body := body, direction := direction, digesting := false }
  | none => none

/-- `Snake::get_head_point` from `src/snake.rs` lines 95-97:
`self.body.first().unwrap()`; `none` models the unwrap panic on an empty
body. -/
def Snake.get_head_point (s : Snake) : Option Point :=
  s.body.head?

/-- `Snake::get_body_points` from `src/snake.rs` lines 99-101. -/
def Snake.get_body_points (s : Snake) : List Point :=
  s.body

/-- `Snake::get_direction` from `src/snake.rs` lines 103-105. -/
def Snake.get_direction (s : Snake) : Direction :=
  s.direction

/-- `Snake::contains_point` from `src/snake.rs` lines 107-109. -/
def Snake.contains_point (s : Snake) (point : Point) : Bool :=
  s.body.contains point

/-- `Snake::slither` from `src/snake.rs` lines 111-122: prepend
`head.transform(direction, 1)`; if not digesting remove the last segment,
otherwise keep it and clear the flag.  `none` models the head-unwrap
panic (empty body) and the propagated `transform` panic. -/
def Snake.slither (s : Snake) : Option Snake :=
  match s.body.head? with
  | none => none
  | some h =>
    match h.transform s.direction 1 with
    | none => none
    | some newHead =>
      let body1 := newHead :: s.body
      if !s.digesting then some { s with body := body1.dropLast }
      else some { s with body := body1, digesting := false }

/-- `Snake::set_direction` from `src/snake.rs` lines 124-126. -/
def Snake.set_direction (s : Snake) (direction : Direction) : Snake :=
  { s with direction := direction }

/-- `Snake::grow` from `src/snake.rs` lines 128-130. -/
def Snake.grow (s : Snake) : Snake :=
  { s with digesting := true }

/-- `MAX_INTERVAL` from `src/game.rs` line 15. -/
def MAX_INTERVAL : Nat := 700

/-- `MIN_INTERVAL` from `src/game.rs` line 16. -/
def MIN_INTERVAL : Nat := 200

/-- `MAX_SPEED` from `src/game.rs` line 17. -/
def MAX_SPEED : Nat := 20

/-- `Game` from `src/game.rs` (functional fields only: `stdout` and
`original_terminal_size` are terminal I/O state irrelevant to the
claims). -/
structure Game where
  width : Nat
  height : Nat
  food : Option Point
  snake : Snake
  speed : Nat
  score : Nat
deriving DecidableEq, Repr

/-- Wrapping `u16` subtraction (`a - b` on `u16` in release mode), for
`a`, `b` in the `u16` range. -/
def u16sub (a b : Nat) : Nat :=
  (a + 65536 - b) % 65536

/-- `Game::has_collidated_with_wall` from `src/game.rs` lines 271-280:
head on the boundary in the direction of the (live) heading.  The `- 1`
on `width`/`height` is wrapping `u16` subtraction. -/
def Game.has_collidated_with_wall (g : Game) : Option Bool :=
  match g.snake.get_head_point with
  | none => none
  | some head_point =>
    some (match g.snake.get_direction with
      | .Up => head_point.y == 0
      | .Right => head_point.x == u16sub g.width 1
      | .Down => head_point.y == u16sub g.height 1
      | .Left => head_point.x == 0)

/-- `Vec::remove(i)`: removes and shifts left; panics (`none`) when
`i ≥ len`. -/
def removeAt (l : List Point) (i : Nat) : Option (List Point) :=
  if i < l.length then some (l.eraseIdx i) else none

/-- `Game::has_bitten_itself` from `src/game.rs` lines 282-290: the
would-be next head is tested for membership in the body after
`remove(len - 1)` and then `remove(0)` (in that order, on the shortened
vector).  Note `next_body_points.len() - 1` underflows on an empty body
and `remove(0)` panics when the body had exactly one segment. -/
def Game.has_bitten_itself (g : Game) : Option Bool :=
  match g.snake.get_head_point with
  | none => none
  | some hp =>
    match hp.transform g.snake.get_direction 1 with
    | none => none
    | some next_head_point =>
      let next_body_points := g.snake.get_body_points
      match removeAt next_body_points (next_body_points.length - 1) with
      | none => none
      | some pts1 =>
        match removeAt pts1 0 with
        | none => none
        | some pts2 => some (pts2.contains next_head_point)

/-- The `Command::Turn(towards)` arm of `Game::run` from `src/game.rs`
lines 170-174: `direction` is the heading snapshotted at tick start;
the turn is applied only if it is neither the snapshot nor its
opposite. -/
def turnCommand (s : Snake) (direction towards : Direction) : Snake :=
  if direction ≠ towards ∧ direction.opposite ≠ towards then s.set_direction towards
  else s

/-- `Game::calculate_interval` from `src/game.rs` lines 234-239, in
milliseconds: `speed = MAX_SPEED - self.speed` (wrapping `u16`
subtraction), then
`MIN_INTERVAL + ((MAX_INTERVAL - MIN_INTERVAL) / MAX_SPEED) * speed`,
with the `u16` multiplication and addition wrapping. -/
def Game.calculate_interval (g : Game) : Nat :=
  let speed := u16sub MAX_SPEED g.speed
  (MIN_INTERVAL + ((MAX_INTERVAL - MIN_INTERVAL) / MAX_SPEED * speed) % 65536) % 65536

/-- The glyph-selection logic of `Game::draw_snake` from `src/game.rs`
lines 311-346, as a function of the segment `body` and its neighbours in
the body list (`previous = body_points[i-1]` when `i > 0`, `next =
body_points[i+1]` when it exists).  `none` models the
`panic!("Invalid snake body point.")` on a segment with no neighbour at
all. -/
def snakeSymbol : Option Point → Option Point → Point → Option Char
  | some p, some n, body =>
    if p.x == n.x then some '║'
    else if p.y == n.y then some '═'
    else
      match body.transform .Down 1, body.transform .Right 1,
            (if body.y == 0 then some body else body.transform .Up 1),
            (if body.x == 0 then some body else body.transform .Left 1) with
      | some d, some r, some u, some l =>
        if (n = d ∧ p = r) ∨ (p = d ∧ n = r) then some '╔'
        else if (n = d ∧ p = l) ∨ (p = d ∧ n = l) then some '╗'
        else if (n = u ∧ p = r) ∨ (p = u ∧ n = r) then some '╚'
        else some '╝'
      | _, _, _, _ => none
  | none, some _, _body => some 'O'
  | some p, none, body => some (if body.y == p.y then '═' else '║')
  | none, none, _body => none

/-- Specification-side shift (refinement reference for `Point.transform`,
following the spec's words): "moves n cells along d (Up decreases y,
Down increases y, Right increases x, Left decreases x)", computed over
unbounded integers with no wrap-around. -/
def shiftSpec (p : Point) (d : Direction) (n : Nat) : Int × Int :=
  match d with
  | .Up => ((p.x : Int), (p.y : Int) - (n : Int))
  | .Right => ((p.x : Int) + (n : Int), (p.y : Int))
  | .Down => ((p.x : Int), (p.y : Int) + (n : Int))
  | .Left => ((p.x : Int) - (n : Int), (p.y : Int))

/-- Specification-side construction precondition for `Snake.new`
(refinement reference, following the claim's words): every point of the
tail, `start` shifted `i` cells along `opposite(heading)` for `i <
length`, stays in the non-negative quadrant. -/
def tailFits (start : Point) (length : Nat) (direction : Direction) : Prop :=
  ∀ i, i < length →
    0 ≤ (shiftSpec start direction.opposite i).1 ∧ 0 ≤ (shiftSpec start direction.opposite i).2

/-- `n as i16` is the identity on naturals below `32768`. -/
theorem toI16_of_lt (n : Nat) (h : n < 32768) : toI16 n = (n : Int) := by
  unfold toI16
  rw [Nat.mod_eq_of_lt (by omega)]
  simp [h]

/-- `transform_value` with a non-negative shift never panics and returns
the low 16 bits of the sum. -/
theorem transform_value_nonneg (v k : Nat) (hv : v ≤ 65535) :
    Point.transform_value v (k : Int) = some ((v + k) % 65536) := by
  unfold Point.transform_value toI16
  have h1 : ¬((k : Int) < 0 ∧ v < (k : Int).natAbs) := by
    rintro ⟨hk, -⟩
    omega
  rw [if_neg h1]
  split_ifs with h2 <;> · congr 1; omega

/-- `transform_value` with shift `-k` panics exactly when `k` exceeds the
coordinate, and otherwise subtracts exactly. -/
theorem transform_value_neg (v k : Nat) (hk : k ≤ 32768) (hv : v ≤ 65535) :
    Point.transform_value v (-(k : Int)) = if k ≤ v then some (v - k) else none := by
  unfold Point.transform_value toI16
  rcases Nat.eq_zero_or_pos k with hk0 | hk0
  · subst hk0
    have h1 : ¬((-(0 : Nat) : Int) < 0 ∧ v < (-(0 : Nat) : Int).natAbs) := by simp
    rw [if_neg h1, if_pos (Nat.zero_le v)]
    split_ifs with h2 <;> · congr 1; omega
  · by_cases hle : k ≤ v
    · have h1 : ¬((-(k : Nat) : Int) < 0 ∧ v < (-(k : Nat) : Int).natAbs) := by
        rintro ⟨-, habs⟩
        omega
      rw [if_neg h1, if_pos hle]
      split_ifs with h2 <;> · congr 1; omega
    · have h1 : (-(k : Nat) : Int) < 0 ∧ v < (-(k : Nat) : Int).natAbs := by
        constructor
        · omega
        · omega
      rw [if_pos h1, if_neg hle]

/-- Master characterisation of `Point.transform` for magnitudes in the
`i16` range and in-range `u16` coordinates: decreasing directions panic
exactly when the magnitude exceeds the coordinate, increasing directions
wrap modulo `2^16`. -/
theorem transform_eq (p : Point) (d : Direction) (n : Nat)
    (hx : p.x ≤ 65535) (hy : p.y ≤ 65535) (hn : n ≤ 32767) :
    p.transform d n =
      match d with
      | .Up => if n ≤ p.y then some ⟨p.x, p.y - n⟩ else none
      | .Right => some ⟨(p.x + n) % 65536, p.y⟩
      | .Down => some ⟨p.x, (p.y + n) % 65536⟩
      | .Left => if n ≤ p.x then some ⟨p.x - n, p.y⟩ else none := by
  have ht : toI16 n = (n : Int) := toI16_of_lt n (by omega)
  have hneg : negI16 (n : Int) = -(n : Int) := by
    unfold negI16
    rw [if_neg (by omega)]
  have hx0 : Point.transform_value p.x ((0 : Nat) : Int) = some p.x := by
    rw [transform_value_nonneg p.x 0 hx]
    congr 1
    omega
  have hy0 : Point.transform_value p.y ((0 : Nat) : Int) = some p.y := by
    rw [transform_value_nonneg p.y 0 hy]
    congr 1
    omega
  cases d
  · show (match Point.transform_value p.x (0 : Int),
        Point.transform_value p.y (negI16 (toI16 n)) with
      | some x, some y => some (⟨x, y⟩ : Point)
      | _, _ => none) = _
    rw [ht, hneg]
    rw [show ((0 : Int)) = ((0 : Nat) : Int) by omega, hx0]
    rw [transform_value_neg p.y n (by omega) hy]
    by_cases h : n ≤ p.y
    · rw [if_pos h]
      simp [h]
    · rw [if_neg h]
      simp [h]
  · show (match Point.transform_value p.x (toI16 n),
        Point.transform_value p.y (0 : Int) with
      | some x, some y => some (⟨x, y⟩ : Point)
      | _, _ => none) = _
    rw [ht, show ((0 : Int)) = ((0 : Nat) : Int) by omega, hy0,
      transform_value_nonneg p.x n hx]
  · show (match Point.transform_value p.x (0 : Int),
        Point.transform_value p.y (toI16 n) with
      | some x, some y => some (⟨x, y⟩ : Point)
      | _, _ => none) = _
    rw [ht, show ((0 : Int)) = ((0 : Nat) : Int) by omega, hx0,
      transform_value_nonneg p.y n hy]
  · show (match Point.transform_value p.x (negI16 (toI16 n)),
        Point.transform_value p.y (0 : Int) with
      | some x, some y => some (⟨x, y⟩ : Point)
      | _, _ => none) = _
    rw [ht, hneg, show ((0 : Int)) = ((0 : Nat) : Int) by omega, hy0,
      transform_value_neg p.x n (by omega) hx]
    by_cases h : n ≤ p.x
    · rw [if_pos h]
      simp [h]
    · rw [if_neg h]
      simp [h]

/-- `transform` one direction at a time: Up. -/
theorem transform_up_eq (p : Point) (n : Nat)
    (hx : p.x ≤ 65535) (hy : p.y ≤ 65535) (hn : n ≤ 32767) :
    p.transform .Up n = if n ≤ p.y then some ⟨p.x, p.y - n⟩ else none := by
  rw [transform_eq p .Up n hx hy hn]

/-- `transform` one direction at a time: Right. -/
theorem transform_right_eq (p : Point) (n : Nat)
    (hx : p.x ≤ 65535) (hy : p.y ≤ 65535) (hn : n ≤ 32767) :
    p.transform .Right n = some ⟨(p.x + n) % 65536, p.y⟩ := by
  rw [transform_eq p .Right n hx hy hn]

/-- `transform` one direction at a time: Down. -/
theorem transform_down_eq (p : Point) (n : Nat)
    (hx : p.x ≤ 65535) (hy : p.y ≤ 65535) (hn : n ≤ 32767) :
    p.transform .Down n = some ⟨p.x, (p.y + n) % 65536⟩ := by
  rw [transform_eq p .Down n hx hy hn]

/-- `transform` one direction at a time: Left. -/
theorem transform_left_eq (p : Point) (n : Nat)
    (hx : p.x ≤ 65535) (hy : p.y ≤ 65535) (hn : n ≤ 32767) :
    p.transform .Left n = if n ≤ p.x then some ⟨p.x - n, p.y⟩ else none := by
  rw [transform_eq p .Left n hx hy hn]

/-- `Vec::remove` at index `len - 1` removes the last element. -/
theorem eraseIdx_last (l : List Point) : l.eraseIdx (l.length - 1) = l.dropLast := by
  induction l with
  | nil => rfl
  | cons a t ih =>
    cases t with
    | nil => rfl
    | cons b t2 =>
      simp only [List.length_cons, Nat.add_sub_cancel] at ih ⊢
      rw [List.eraseIdx_cons_succ, List.dropLast_cons₂]
      exact congrArg (a :: ·) ih

/-- C1: `Snake::slither` prepends `translate(old head, heading, 1)`; with
the pending-growth (`digesting`) flag set it clears the flag and keeps the
tail (length +1, flag comes back `false`, so a second advance removes a
segment normally); without it, it drops the last segment (length
unchanged, old tail removed, every other segment retained in order). -/
theorem slither_spec (s : Snake) (h : Point) (rest : List Point) (nh : Point)
    (hbody : s.body = h :: rest) (htr : h.transform s.direction 1 = some nh) :
    (s.digesting = true →
      s.slither = some { body := nh :: h :: rest, direction := s.direction, digesting := false } ∧
      (nh :: h :: rest).length = s.body.length + 1) ∧
    (s.digesting = false →
      s.slither =
        some { body := nh :: (h :: rest).dropLast, direction := s.direction,
               digesting := false } ∧
      (nh :: (h :: rest).dropLast).length = s.body.length) := by
  constructor
  · intro hd
    constructor
    · unfold Snake.slither
      rw [hbody]
      simp only [List.head?_cons, htr, hd]
      rfl
    · rw [hbody]
      simp
  · intro hd
    constructor
    · unfold Snake.slither
      rw [hbody]
      simp only [List.head?_cons, htr, hd]
      simp only [Bool.not_false, if_pos]
      rw [List.dropLast_cons₂]
    · rw [hbody]
      simp [List.length_dropLast]

/-- C1 witness: a two-segment snake heading Right advances as the claim
says. -/
theorem slither_spec_witness :
    Point.transform ⟨2, 2⟩ .Right 1 = some ⟨3, 2⟩ ∧
    Snake.slither ⟨[⟨2, 2⟩, ⟨1, 2⟩], .Right, false⟩ =
      some { body := [⟨3, 2⟩, ⟨2, 2⟩], direction := .Right, digesting := false } := by
  constructor
  · decide
  · have h :=
      (slither_spec ⟨[⟨2, 2⟩, ⟨1, 2⟩], .Right, false⟩ ⟨2, 2⟩ [⟨1, 2⟩] ⟨3, 2⟩ rfl
        (by decide)).2 rfl
    rw [h.1]
    decide

/-- C2: `Game::has_collidated_with_wall` holds exactly when the head sits
on the boundary in the direction of the (live) heading. -/
theorem wall_collision_spec (g : Game) (hp : Point)
    (hhead : g.snake.get_head_point = some hp)
    (hw1 : 1 ≤ g.width) (hw2 : g.width ≤ 65535)
    (hh1 : 1 ≤ g.height) (hh2 : g.height ≤ 65535) :
    g.has_collidated_with_wall = some true ↔
      (g.snake.get_direction = .Up ∧ hp.y = 0) ∨
      (g.snake.get_direction = .Right ∧ hp.x = g.width - 1) ∨
      (g.snake.get_direction = .Down ∧ hp.y = g.height - 1) ∨
      (g.snake.get_direction = .Left ∧ hp.x = 0) := by
  have hsw : u16sub g.width 1 = g.width - 1 := by
    unfold u16sub
    omega
  have hsh : u16sub g.height 1 = g.height - 1 := by
    unfold u16sub
    omega
  unfold Game.has_collidated_with_wall
  rw [hhead]
  cases hd : g.snake.get_direction <;> simp [hd, hsw, hsh]

/-- C2 witness: a snake heading Left with its head at `x = 0` on the
30×10 grid of `main.rs` has hit the wall. -/
theorem wall_collision_spec_witness :
    Game.has_collidated_with_wall
      { width := 30, height := 10, food := none,
        snake := ⟨[⟨0, 3⟩], .Left, false⟩, speed := 20, score := 0 } = some true := by
  exact (wall_collision_spec
    { width := 30, height := 10, food := none,
      snake := ⟨[⟨0, 3⟩], .Left, false⟩, speed := 20, score := 0 } ⟨0, 3⟩ rfl
    (by decide) (by decide) (by decide) (by decide)).mpr
    (Or.inr (Or.inr (Or.inr ⟨rfl, rfl⟩)))

/-- C3 counterexample: on a single-segment snake, `has_bitten_itself`
panics (`Vec::remove(0)` on the vector already emptied by the first
`remove`), modelled as `none`, instead of returning the membership
verdict (`false`, since the body minus head minus tail is empty) that
the claim demands for every body length. -/
theorem has_bitten_itself_len1_counterexample :
    Game.has_bitten_itself
      { width := 9, height := 9, food := none,
        snake := ⟨[⟨1, 1⟩], .Down, false⟩, speed := 20, score := 0 } = none ∧
    ¬ ((⟨1, 2⟩ : Point) ∈ ([⟨1, 1⟩] : List Point).tail.dropLast) := by
  decide

/-- C3 amended: for a snake with at least two segments (and a would-be
next head that translates without a domain error), `has_bitten_itself`
returns exactly the membership of `translate(head, heading, 1)` in the
body with the current head (first element) and current tail (last
element) excluded. -/
theorem has_bitten_itself_spec (g : Game) (a b : Point) (rest : List Point) (nh : Point)
    (hbody : g.snake.body = a :: b :: rest)
    (htr : Point.transform a g.snake.direction 1 = some nh) :
    g.has_bitten_itself = some (((a :: b :: rest).tail.dropLast).contains nh) := by
  unfold Game.has_bitten_itself
  have hhead : g.snake.get_head_point = some a := by
    simp [Snake.get_head_point, hbody]
  have hdir : g.snake.get_direction = g.snake.direction := rfl
  have hbp : g.snake.get_body_points = a :: b :: rest := hbody
  have h1 : removeAt (a :: b :: rest) ((a :: b :: rest).length - 1) =
      some (a :: (b :: rest).dropLast) := by
    unfold removeAt
    rw [if_pos (by simp)]
    rw [eraseIdx_last, List.dropLast_cons₂]
  have h2 : removeAt (a :: (b :: rest).dropLast) 0 = some ((b :: rest).dropLast) := by
    unfold removeAt
    rw [if_pos (by simp)]
    rfl
  rw [hhead]
  simp only [hdir, htr, hbp]
  simp only [h1, h2, List.tail_cons]

/-- C3 witness: a straight three-segment snake heading Right does not
bite itself; the excluded-ends membership verdict is `false`. -/
theorem has_bitten_itself_spec_witness :
    Game.has_bitten_itself
      { width := 30, height := 10, food := none,
        snake := ⟨[⟨5, 5⟩, ⟨4, 5⟩, ⟨3, 5⟩], .Right, false⟩, speed := 20, score := 0 } =
      some (([(⟨5, 5⟩ : Point), ⟨4, 5⟩, ⟨3, 5⟩].tail.dropLast).contains ⟨6, 5⟩) := by
  exact has_bitten_itself_spec _ ⟨5, 5⟩ ⟨4, 5⟩ [⟨3, 5⟩] ⟨6, 5⟩ rfl (by decide)

/-- C4: with the tick-start snapshot equal to the snake's current heading
`H`, `Turn(H)` and `Turn(opposite H)` leave the heading unchanged and any
other `Turn(D)` sets the heading to `D`. -/
theorem turn_spec (s : Snake) (D : Direction) :
    (turnCommand s s.direction s.direction).direction = s.direction ∧
    (turnCommand s s.direction s.direction.opposite).direction = s.direction ∧
    (D ≠ s.direction → D ≠ s.direction.opposite →
      (turnCommand s s.direction D).direction = D) := by
  refine ⟨?_, ?_, ?_⟩
  · unfold turnCommand
    rw [if_neg (by simp)]
  · unfold turnCommand
    rw [if_neg (by simp)]
  · intro h1 h2
    unfold turnCommand
    rw [if_pos ⟨Ne.symm h1, Ne.symm h2⟩]
    rfl

/-- C4 witness: heading Up — `Turn(Up)` and `Turn(Down)` are rejected,
`Turn(Right)` is applied. -/
theorem turn_spec_witness :
    (turnCommand ⟨[], .Up, false⟩ .Up .Up).direction = .Up ∧
    (turnCommand ⟨[], .Up, false⟩ .Up .Down).direction = .Up ∧
    (turnCommand ⟨[], .Up, false⟩ .Up .Right).direction = .Right := by
  have h := turn_spec ⟨[], .Up, false⟩ .Right
  exact ⟨h.1, h.2.1, h.2.2 (by decide) (by decide)⟩

/-- C7 counterexample: moving 40000 cells Right from the origin keeps
both coordinates non-negative (the spec-side shift is `(40000, 0)`), yet
`transform` panics: the `u16 → i16` cast of `times` flips the sign of
the shift for magnitudes at or above `32768`, so the claim's
"succeeds whenever the result stays non-negative" direction fails. -/
theorem transform_counterexample :
    Point.transform ⟨0, 0⟩ .Right 40000 = none ∧
    0 ≤ (shiftSpec ⟨0, 0⟩ .Right 40000).1 ∧ 0 ≤ (shiftSpec ⟨0, 0⟩ .Right 40000).2 := by
  decide

/-- C7 amended: for magnitudes representable in `i16` (`n ≤ 32767`) and
in-range `u16` coordinates, `translate` fails exactly when the shift
would make a coordinate negative, and returns exactly the shifted point
whenever both shifted coordinates also fit in `u16`. -/
theorem transform_spec (p : Point) (d : Direction) (n : Nat)
    (hx : p.x ≤ 65535) (hy : p.y ≤ 65535) (hn : n ≤ 32767) :
    (p.transform d n = none ↔
      (shiftSpec p d n).1 < 0 ∨ (shiftSpec p d n).2 < 0) ∧
    (0 ≤ (shiftSpec p d n).1 → (shiftSpec p d n).1 ≤ 65535 →
     0 ≤ (shiftSpec p d n).2 → (shiftSpec p d n).2 ≤ 65535 →
      p.transform d n = some ⟨(shiftSpec p d n).1.toNat, (shiftSpec p d n).2.toNat⟩) := by
  rw [transform_eq p d n hx hy hn]
  cases d
  · refine ⟨?_, ?_⟩
    · simp only [shiftSpec]
      split_ifs with h <;> simp <;> omega
    · simp only [shiftSpec]
      intro h1 h2 h3 h4
      rw [if_pos (by omega)]
      simp only [Option.some.injEq, Point.mk.injEq]
      omega
  · refine ⟨?_, ?_⟩
    · simp only [shiftSpec]
      simp
      omega
    · simp only [shiftSpec]
      intro h1 h2 h3 h4
      simp only [Option.some.injEq, Point.mk.injEq]
      omega
  · refine ⟨?_, ?_⟩
    · simp only [shiftSpec]
      simp
      omega
    · simp only [shiftSpec]
      intro h1 h2 h3 h4
      simp only [Option.some.injEq, Point.mk.injEq]
      omega
  · refine ⟨?_, ?_⟩
    · simp only [shiftSpec]
      split_ifs with h <;> simp <;> omega
    · simp only [shiftSpec]
      intro h1 h2 h3 h4
      rw [if_pos (by omega)]
      simp only [Option.some.injEq, Point.mk.injEq]
      omega

/-- C7 witness: moving 2 cells Up from (5, 5) stays non-negative and
succeeds with the exact shifted point (5, 3). -/
theorem transform_spec_witness :
    (Point.transform ⟨5, 5⟩ .Up 2 = none ↔
      (shiftSpec ⟨5, 5⟩ .Up 2).1 < 0 ∨ (shiftSpec ⟨5, 5⟩ .Up 2).2 < 0) ∧
    Point.transform ⟨5, 5⟩ .Up 2 = some ⟨5, 3⟩ := by
  have h := transform_spec ⟨5, 5⟩ .Up 2 (by decide) (by decide) (by decide)
  refine ⟨h.1, ?_⟩
  rw [h.2 (by decide) (by decide) (by decide) (by decide)]
  decide

/-- C8: if the head is inside the grid and the wall-collision check is
false, the `translate(head, heading, 1)` performed by the self-collision
check never hits the negative-coordinate domain error, and neither does
the identical call inside the subsequent `slither` (which therefore
succeeds). -/
theorem no_panic_after_wall_check (g : Game) (hp : Point)
    (hhead : g.snake.get_head_point = some hp)
    (hw : g.width ≤ 65535) (hh : g.height ≤ 65535)
    (hx : hp.x < g.width) (hy : hp.y < g.height)
    (hwall : g.has_collidated_with_wall = some false) :
    (hp.transform g.snake.direction 1).isSome = true ∧
    g.snake.slither.isSome = true := by
  unfold Game.has_collidated_with_wall at hwall
  rw [hhead] at hwall
  have hfirst : (hp.transform g.snake.direction 1).isSome = true := by
    cases hd : g.snake.direction
    · have hdir : g.snake.get_direction = Direction.Up := hd
      rw [hdir] at hwall
      simp only [Option.some.injEq] at hwall
      have hy0 : ¬ hp.y = 0 := by simpa using hwall
      rw [transform_up_eq hp 1 (by omega) (by omega) (by omega), if_pos (by omega)]
      rfl
    · rw [transform_right_eq hp 1 (by omega) (by omega) (by omega)]
      rfl
    · rw [transform_down_eq hp 1 (by omega) (by omega) (by omega)]
      rfl
    · have hdir : g.snake.get_direction = Direction.Left := hd
      rw [hdir] at hwall
      simp only [Option.some.injEq] at hwall
      have hx0 : ¬ hp.x = 0 := by simpa using hwall
      rw [transform_left_eq hp 1 (by omega) (by omega) (by omega), if_pos (by omega)]
      rfl
  refine ⟨hfirst, ?_⟩
  unfold Snake.slither
  rw [show g.snake.body.head? = some hp from hhead]
  rcases Option.isSome_iff_exists.mp hfirst with ⟨np, hnp⟩
  simp only [hnp]
  split <;> rfl

/-- C8 witness: on the 30×10 grid, a snake heading Up with its head at
(1, 3) passes the wall check, and the translate of its head succeeds. -/
theorem no_panic_after_wall_check_witness :
    (Point.transform ⟨1, 3⟩ .Up 1).isSome = true ∧
    (Snake.slither ⟨[⟨1, 3⟩, ⟨1, 4⟩], .Up, false⟩).isSome = true := by
  exact no_panic_after_wall_check
    { width := 30, height := 10, food := none,
      snake := ⟨[⟨1, 3⟩, ⟨1, 4⟩], .Up, false⟩, speed := 20, score := 0 } ⟨1, 3⟩ rfl
    (by decide) (by decide) (by decide) (by decide) (by decide)

/-- C9: for speeds in `[0, MAX_SPEED]` the computed interval is exactly
`MIN_INTERVAL + ((MAX_INTERVAL - MIN_INTERVAL) / MAX_SPEED) *
(MAX_SPEED - speed) = 200 + 25 * (20 - speed)` milliseconds, strictly
decreasing in the speed, and exactly 200 ms at `speed = MAX_SPEED`. -/
theorem calculate_interval_spec (g1 g2 : Game) (h1 : g1.speed ≤ 20) (h2 : g2.speed ≤ 20) :
    g1.calculate_interval = 200 + 25 * (20 - g1.speed) ∧
    (g1.speed < g2.speed → g2.calculate_interval < g1.calculate_interval) ∧
    (g1.speed = 20 → g1.calculate_interval = 200) := by
  have key : ∀ g : Game, g.speed ≤ 20 →
      g.calculate_interval = 200 + 25 * (20 - g.speed) := by
    intro g hg
    unfold Game.calculate_interval u16sub MAX_INTERVAL MIN_INTERVAL MAX_SPEED
    simp only []
    omega
  refine ⟨key g1 h1, ?_, ?_⟩
  · intro hlt
    rw [key g1 h1, key g2 h2]
    omega
  · intro he
    rw [key g1 h1, he]

/-- C9 witness: speed 19 gives 225 ms, speed 20 gives the 200 ms floor,
and the interval at speed 20 is below the one at speed 19. -/
theorem calculate_interval_spec_witness :
    Game.calculate_interval
      { width := 30, height := 10, food := none,
        snake := ⟨[], .Up, false⟩, speed := 19, score := 0 } = 225 ∧
    Game.calculate_interval
      { width := 30, height := 10, food := none,
        snake := ⟨[], .Up, false⟩, speed := 20, score := 0 } = 200 ∧
    Game.calculate_interval
      { width := 30, height := 10, food := none,
        snake := ⟨[], .Up, false⟩, speed := 20, score := 0 } <
    Game.calculate_interval
      { width := 30, height := 10, food := none,
        snake := ⟨[], .Up, false⟩, speed := 19, score := 0 } := by
  have h := calculate_interval_spec
    { width := 30, height := 10, food := none,
      snake := ⟨[], .Up, false⟩, speed := 19, score := 0 }
    { width := 30, height := 10, food := none,
      snake := ⟨[], .Up, false⟩, speed := 20, score := 0 }
    (by decide) (by decide)
  have h20 := calculate_interval_spec
    { width := 30, height := 10, food := none,
      snake := ⟨[], .Up, false⟩, speed := 20, score := 0 }
    { width := 30, height := 10, food := none,
      snake := ⟨[], .Up, false⟩, speed := 20, score := 0 }
    (by decide) (by decide)
  refine ⟨?_, h20.2.2 rfl, h.2.1 (by decide)⟩
  rw [h.1]
  decide

/-- C5 (code bug): in the spec's 5×5 end-to-end scenario — snake of body
length 1 at (2, 2) heading Right, food at (3, 2), no input — the tick's
wall check passes, but `has_bitten_itself` panics (`Vec::remove(0)` on
the vector already emptied by `remove(len - 1)`), modelled as `none`.
The tick therefore aborts before `slither`: the head never moves to
(3, 2), no food is eaten, the score stays 0 and the length stays 1,
contradicting the documented scenario outcome. -/
theorem tick_scenario_len1 :
    Game.has_collidated_with_wall
      { width := 5, height := 5, food := some ⟨3, 2⟩,
        snake := ⟨[⟨2, 2⟩], .Right, false⟩, speed := 20, score := 0 } = some false ∧
    Game.has_bitten_itself
      { width := 5, height := 5, food := some ⟨3, 2⟩,
        snake := ⟨[⟨2, 2⟩], .Right, false⟩, speed := 20, score := 0 } = none := by
  decide

/-- `collectRange` fails as soon as any element of the range fails. -/
theorem collectRange_none {α : Type} (f : Nat → Option α) (n i : Nat)
    (hi : i < n) (hf : f i = none) : collectRange f n = none := by
  induction n with
  | zero => omega
  | succ m ih =>
    unfold collectRange
    rcases Nat.lt_succ_iff_lt_or_eq.mp hi with h | h
    · rw [ih h]
    · rw [← h, hf]
      cases collectRange f i <;> rfl

/-- `collectRange` succeeds exactly when every element of the range
succeeds. -/
theorem collectRange_isSome {α : Type} (f : Nat → Option α) (n : Nat) :
    (collectRange f n).isSome = true ↔ ∀ i, i < n → (f i).isSome = true := by
  induction n with
  | zero =>
    simp only [collectRange, Option.isSome_some, true_iff]
    omega
  | succ m ih =>
    constructor
    · intro h i hi
      unfold collectRange at h
      rcases hc : collectRange f m with _ | acc
      · rw [hc] at h
        simp at h
      · rcases hf : f m with _ | p
        · rw [hc, hf] at h
          simp at h
        · rcases Nat.lt_succ_iff_lt_or_eq.mp hi with h' | h'
          · exact ih.mp (by rw [hc]; rfl) i h'
          · rw [h', hf]
            rfl
    · intro h
      have hm : (collectRange f m).isSome = true := ih.mpr (fun i hi => h i (by omega))
      have hf : (f m).isSome = true := h m (by omega)
      rcases Option.isSome_iff_exists.mp hm with ⟨acc, hacc⟩
      rcases Option.isSome_iff_exists.mp hf with ⟨p, hp⟩
      unfold collectRange
      rw [hacc, hp]
      rfl

/-- `transform` succeeds exactly when the spec-side shift stays
non-negative (for `i16`-range magnitudes and in-range coordinates). -/
theorem transform_isSome_iff (p : Point) (d : Direction) (n : Nat)
    (hx : p.x ≤ 65535) (hy : p.y ≤ 65535) (hn : n ≤ 32767) :
    (p.transform d n).isSome = true ↔
      0 ≤ (shiftSpec p d n).1 ∧ 0 ≤ (shiftSpec p d n).2 := by
  cases d
  · rw [transform_up_eq p n hx hy hn]
    simp only [shiftSpec]
    split_ifs with h <;> simp <;> omega
  · rw [transform_right_eq p n hx hy hn]
    simp only [shiftSpec]
    simp
    omega
  · rw [transform_down_eq p n hx hy hn]
    simp only [shiftSpec]
    simp
    omega
  · rw [transform_left_eq p n hx hy hn]
    simp only [shiftSpec]
    split_ifs with h <;> simp <;> omega

/-- `Snake::new` panics as soon as laying any tail segment panics. -/
theorem snake_new_none_of (start : Point) (len : Nat) (d : Direction) (i : Nat)
    (hi : i < len) (hf : start.transform d.opposite i = none) :
    Snake.new start len d = none := by
  unfold Snake.new
  rw [collectRange_none _ len i hi hf]

/-- C10 counterexample: `Snake::new((0,0), 40000, Left)` lays its tail
along Right, so every spec-side shifted point `(i, 0)` is non-negative
and the claim says construction succeeds — but the `u16 → i16` cast of
`i = 32768` flips the shift's sign and `transform` panics, so
construction fails. -/
theorem snake_new_counterexample :
    tailFits ⟨0, 0⟩ 40000 .Left ∧ Snake.new ⟨0, 0⟩ 40000 .Left = none := by
  constructor
  · intro i hi
    simp only [shiftSpec, Direction.opposite]
    constructor <;> omega
  · exact snake_new_none_of ⟨0, 0⟩ 40000 .Left 32768 (by omega) (by decide)

/-- C10 amended: for lengths up to `32768` (so every laying index is
`i16`-representable) and an in-range start, `Snake::new` succeeds exactly
when the whole tail fits in the non-negative quadrant; with length 0 it
returns a snake with an empty body, on which `get_head_point` and
`slither` panic. -/
theorem snake_new_spec (start : Point) (len : Nat) (d : Direction)
    (hx : start.x ≤ 65535) (hy : start.y ≤ 65535) (hl : len ≤ 32768) :
    ((Snake.new start len d).isSome = true ↔ tailFits start len d) ∧
    Snake.new start 0 d = some { body := [], direction := d, digesting := false } ∧
    Snake.get_head_point { body := [], direction := d, digesting := false } = none ∧
    Snake.slither { body := [], direction := d, digesting := false } = none := by
  refine ⟨?_, rfl, rfl, rfl⟩
  unfold Snake.new
  have hmatch : ∀ o : Option (List Point),
      (match o with
        | some body => some ({ body := body, direction := d, digesting := false } : Snake)
        | none => none).isSome = o.isSome := by
    rintro (_ | b) <;> rfl
  rw [hmatch, collectRange_isSome]
  unfold tailFits
  refine forall_congr' (fun i => imp_congr_right (fun hi => ?_))
  exact transform_isSome_iff start d.opposite i hx hy (by omega)

/-- C10 witness: a length-2 snake heading Right starting at (3, 3) fits
(its tail lies at (2, 3)), and the length-0 degenerate cases hold. -/
theorem snake_new_spec_witness :
    ((Snake.new ⟨3, 3⟩ 2 .Right).isSome = true ↔ tailFits ⟨3, 3⟩ 2 .Right) ∧
    Snake.new ⟨3, 3⟩ 0 .Right = some { body := [], direction := .Right, digesting := false } ∧
    Snake.get_head_point { body := [], direction := .Right, digesting := false } = none ∧
    Snake.slither { body := [], direction := .Right, digesting := false } = none := by
  exact snake_new_spec ⟨3, 3⟩ 2 .Right (by decide) (by decide) (by decide)

/-- C6 counterexample: the head of a two-segment horizontal snake — an
endpoint whose only neighbour (its `next` in the body list) lies
directly to its left — is drawn with the head marker 'O', not the
horizontal glyph the claim demands for such an endpoint; and a segment
with no neighbour at all panics (`none`) rather than producing a head
marker glyph. -/
theorem snake_symbol_counterexample :
    snakeSymbol none (some ⟨1, 2⟩) ⟨2, 2⟩ = some 'O' ∧
    ('O' : Char) ≠ '═' ∧
    snakeSymbol none none ⟨2, 2⟩ = none := by
  refine ⟨rfl, by decide, rfl⟩

/-- Closed form of the interior (two-neighbour) corner branch of the
glyph selection, with the code's compass cells written out: `d`/`r` are
the cells below/right of the segment, `u`/`l` are the cells above/left
of it clamped to the segment itself on the grid edge. -/
theorem snakeSymbol_interior_eq (b p n : Point)
    (h1 : ¬ p.x = n.x) (h2 : ¬ p.y = n.y)
    (hx1 : b.x + 1 ≤ 65535) (hy1 : b.y + 1 ≤ 65535) :
    snakeSymbol (some p) (some n) b =
      (if (n = ⟨b.x, b.y + 1⟩ ∧ p = ⟨b.x + 1, b.y⟩) ∨
          (p = ⟨b.x, b.y + 1⟩ ∧ n = ⟨b.x + 1, b.y⟩)
       then some '╔'
       else if (n = ⟨b.x, b.y + 1⟩ ∧ p = (if b.x = 0 then b else ⟨b.x - 1, b.y⟩)) ∨
               (p = ⟨b.x, b.y + 1⟩ ∧ n = (if b.x = 0 then b else ⟨b.x - 1, b.y⟩))
       then some '╗'
       else if (n = (if b.y = 0 then b else ⟨b.x, b.y - 1⟩) ∧ p = ⟨b.x + 1, b.y⟩) ∨
               (p = (if b.y = 0 then b else ⟨b.x, b.y - 1⟩) ∧ n = ⟨b.x + 1, b.y⟩)
       then some '╚'
       else some '╝') := by
  have hd : b.transform .Down 1 = some ⟨b.x, b.y + 1⟩ := by
    rw [transform_down_eq b 1 (by omega) (by omega) (by omega),
      Nat.mod_eq_of_lt (by omega : b.y + 1 < 65536)]
  have hr : b.transform .Right 1 = some ⟨b.x + 1, b.y⟩ := by
    rw [transform_right_eq b 1 (by omega) (by omega) (by omega),
      Nat.mod_eq_of_lt (by omega : b.x + 1 < 65536)]
  have hu : (if b.y == 0 then some b else b.transform .Up 1) =
      some (if b.y = 0 then b else ⟨b.x, b.y - 1⟩) := by
    by_cases hb : b.y = 0
    · simp [hb]
    · rw [if_neg (by simpa using hb), if_neg hb,
        transform_up_eq b 1 (by omega) (by omega) (by omega), if_pos (by omega)]
  have hl : (if b.x == 0 then some b else b.transform .Left 1) =
      some (if b.x = 0 then b else ⟨b.x - 1, b.y⟩) := by
    by_cases hb : b.x = 0
    · simp [hb]
    · rw [if_neg (by simpa using hb), if_neg hb,
        transform_left_eq b 1 (by omega) (by omega) (by omega), if_pos (by omega)]
  simp only [snakeSymbol]
  rw [hd, hr, hu, hl]
  rw [if_neg (by simpa using h1), if_neg (by simpa using h2)]

/-- C6 amended: glyph selection is a pure function of the neighbour
offsets, but keyed first on which neighbours exist: a segment with no
neighbour at all panics (there is no head-marker fallback); a segment
with a `next` but no `previous` (the head of a multi-segment snake) is
always the head marker 'O' regardless of offsets; a segment with a
`previous` but no `next` (the tail) is horizontal when the neighbour
shares its row, else vertical; an interior segment is vertical when the
neighbours share a column, horizontal when they share a row, and
otherwise one of the four corner glyphs picked by which compass cell
each neighbour occupies. -/
theorem snake_symbol_spec (b p n : Point)
    (hx1 : b.x + 1 ≤ 65535) (hy1 : b.y + 1 ≤ 65535) :
    snakeSymbol none none b = none ∧
    snakeSymbol none (some n) b = some 'O' ∧
    snakeSymbol (some p) none b = some (if b.y = p.y then '═' else '║') ∧
    (p.x = n.x → snakeSymbol (some p) (some n) b = some '║') ∧
    (¬ p.x = n.x → p.y = n.y → snakeSymbol (some p) (some n) b = some '═') ∧
    (¬ p.x = n.x → ¬ p.y = n.y →
      (snakeSymbol (some p) (some n) b = some '╔' ∨
       snakeSymbol (some p) (some n) b = some '╗' ∨
       snakeSymbol (some p) (some n) b = some '╚' ∨
       snakeSymbol (some p) (some n) b = some '╝')) ∧
    ((p = ⟨b.x, b.y + 1⟩ ∧ n = ⟨b.x + 1, b.y⟩) ∨ (n = ⟨b.x, b.y + 1⟩ ∧ p = ⟨b.x + 1, b.y⟩) →
      snakeSymbol (some p) (some n) b = some '╔') ∧
    (1 ≤ b.x →
      ((p = ⟨b.x, b.y + 1⟩ ∧ n = ⟨b.x - 1, b.y⟩) ∨ (n = ⟨b.x, b.y + 1⟩ ∧ p = ⟨b.x - 1, b.y⟩)) →
      snakeSymbol (some p) (some n) b = some '╗') ∧
    (1 ≤ b.y →
      ((p = ⟨b.x, b.y - 1⟩ ∧ n = ⟨b.x + 1, b.y⟩) ∨ (n = ⟨b.x, b.y - 1⟩ ∧ p = ⟨b.x + 1, b.y⟩)) →
      snakeSymbol (some p) (some n) b = some '╚') ∧
    (1 ≤ b.x → 1 ≤ b.y →
      ((p = ⟨b.x, b.y - 1⟩ ∧ n = ⟨b.x - 1, b.y⟩) ∨ (n = ⟨b.x, b.y - 1⟩ ∧ p = ⟨b.x - 1, b.y⟩)) →
      snakeSymbol (some p) (some n) b = some '╝') := by
  refine ⟨rfl, rfl, ?_, ?_, ?_, ?_, ?_, ?_, ?_, ?_⟩
  · by_cases h : b.y = p.y <;> simp [snakeSymbol, h]
  · intro h
    simp [snakeSymbol, h]
  · intro h1 h2
    simp [snakeSymbol, beq_iff_eq, h1, h2]
  · intro h1 h2
    rw [snakeSymbol_interior_eq b p n h1 h2 hx1 hy1]
    split_ifs <;> simp
  · intro h
    have hpx : ¬ p.x = n.x := by
      rcases h with ⟨hp, hn⟩ | ⟨hn, hp⟩ <;> subst hp <;> subst hn <;>
        intro hc <;> simp at hc <;> omega
    have hpy : ¬ p.y = n.y := by
      rcases h with ⟨hp, hn⟩ | ⟨hn, hp⟩ <;> subst hp <;> subst hn <;>
        intro hc <;> simp at hc <;> omega
    rw [snakeSymbol_interior_eq b p n hpx hpy hx1 hy1]
    rcases h with ⟨hp, hn⟩ | ⟨hn, hp⟩
    · rw [if_pos (Or.inr ⟨hp, hn⟩)]
    · rw [if_pos (Or.inl ⟨hn, hp⟩)]
  · intro hbx h
    have hpx : ¬ p.x = n.x := by
      rcases h with ⟨hp, hn⟩ | ⟨hn, hp⟩ <;> subst hp <;> subst hn <;>
        intro hc <;> simp at hc <;> omega
    have hpy : ¬ p.y = n.y := by
      rcases h with ⟨hp, hn⟩ | ⟨hn, hp⟩ <;> subst hp <;> subst hn <;>
        intro hc <;> simp at hc <;> omega
    rw [snakeSymbol_interior_eq b p n hpx hpy hx1 hy1,
      show (if b.x = 0 then b else (⟨b.x - 1, b.y⟩ : Point)) = ⟨b.x - 1, b.y⟩
        from if_neg (by omega)]
    have hc1 : ¬ ((n = (⟨b.x, b.y + 1⟩ : Point) ∧ p = ⟨b.x + 1, b.y⟩) ∨
        (p = ⟨b.x, b.y + 1⟩ ∧ n = ⟨b.x + 1, b.y⟩)) := by
      rcases h with ⟨hp, hn⟩ | ⟨hn, hp⟩ <;> subst hp <;> subst hn <;>
        rintro (⟨ha, hb⟩ | ⟨ha, hb⟩) <;> simp [Point.mk.injEq] at ha hb <;> omega
    rw [if_neg hc1]
    rcases h with ⟨hp, hn⟩ | ⟨hn, hp⟩
    · rw [if_pos (Or.inr ⟨hp, hn⟩)]
    · rw [if_pos (Or.inl ⟨hn, hp⟩)]
  · intro hby h
    have hpx : ¬ p.x = n.x := by
      rcases h with ⟨hp, hn⟩ | ⟨hn, hp⟩ <;> subst hp <;> subst hn <;>
        intro hc <;> simp at hc <;> omega
    have hpy : ¬ p.y = n.y := by
      rcases h with ⟨hp, hn⟩ | ⟨hn, hp⟩ <;> subst hp <;> subst hn <;>
        intro hc <;> simp at hc <;> omega
    rw [snakeSymbol_interior_eq b p n hpx hpy hx1 hy1,
      show (if b.y = 0 then b else (⟨b.x, b.y - 1⟩ : Point)) = ⟨b.x, b.y - 1⟩
        from if_neg (by omega)]
    have hc1 : ¬ ((n = (⟨b.x, b.y + 1⟩ : Point) ∧ p = ⟨b.x + 1, b.y⟩) ∨
        (p = ⟨b.x, b.y + 1⟩ ∧ n = ⟨b.x + 1, b.y⟩)) := by
      rcases h with ⟨hp, hn⟩ | ⟨hn, hp⟩ <;> subst hp <;> subst hn <;>
        rintro (⟨ha, hb⟩ | ⟨ha, hb⟩) <;> simp [Point.mk.injEq] at ha hb <;> omega
    have hc2 : ¬ ((n = (⟨b.x, b.y + 1⟩ : Point) ∧
          p = (if b.x = 0 then b else ⟨b.x - 1, b.y⟩)) ∨
        (p = ⟨b.x, b.y + 1⟩ ∧ n = (if b.x = 0 then b else ⟨b.x - 1, b.y⟩))) := by
      rcases h with ⟨hp, hn⟩ | ⟨hn, hp⟩ <;> subst hp <;> subst hn <;>
        rintro (⟨ha, -⟩ | ⟨ha, -⟩) <;> simp [Point.mk.injEq] at ha <;> omega
    rw [if_neg hc1, if_neg hc2]
    rcases h with ⟨hp, hn⟩ | ⟨hn, hp⟩
    · rw [if_pos (Or.inr ⟨hp, hn⟩)]
    · rw [if_pos (Or.inl ⟨hn, hp⟩)]
  · intro hbx hby h
    have hpx : ¬ p.x = n.x := by
      rcases h with ⟨hp, hn⟩ | ⟨hn, hp⟩ <;> subst hp <;> subst hn <;>
        intro hc <;> simp at hc <;> omega
    have hpy : ¬ p.y = n.y := by
      rcases h with ⟨hp, hn⟩ | ⟨hn, hp⟩ <;> subst hp <;> subst hn <;>
        intro hc <;> simp at hc <;> omega
    rw [snakeSymbol_interior_eq b p n hpx hpy hx1 hy1,
      show (if b.x = 0 then b else (⟨b.x - 1, b.y⟩ : Point)) = ⟨b.x - 1, b.y⟩
        from if_neg (by omega),
      show (if b.y = 0 then b else (⟨b.x, b.y - 1⟩ : Point)) = ⟨b.x, b.y - 1⟩
        from if_neg (by omega)]
    have hc1 : ¬ ((n = (⟨b.x, b.y + 1⟩ : Point) ∧ p = ⟨b.x + 1, b.y⟩) ∨
        (p = ⟨b.x, b.y + 1⟩ ∧ n = ⟨b.x + 1, b.y⟩)) := by
      rcases h with ⟨hp, hn⟩ | ⟨hn, hp⟩ <;> subst hp <;> subst hn <;>
        rintro (⟨ha, -⟩ | ⟨ha, -⟩) <;> simp [Point.mk.injEq] at ha <;> omega
    have hc2 : ¬ ((n = (⟨b.x, b.y + 1⟩ : Point) ∧ p = ⟨b.x - 1, b.y⟩) ∨
        (p = ⟨b.x, b.y + 1⟩ ∧ n = ⟨b.x - 1, b.y⟩)) := by
      rcases h with ⟨hp, hn⟩ | ⟨hn, hp⟩ <;> subst hp <;> subst hn <;>
        rintro (⟨ha, -⟩ | ⟨ha, -⟩) <;> simp [Point.mk.injEq] at ha <;> omega
    have hc3 : ¬ ((n = (⟨b.x, b.y - 1⟩ : Point) ∧ p = ⟨b.x + 1, b.y⟩) ∨
        (p = ⟨b.x, b.y - 1⟩ ∧ n = ⟨b.x + 1, b.y⟩)) := by
      rcases h with ⟨hp, hn⟩ | ⟨hn, hp⟩ <;> subst hp <;> subst hn <;>
        rintro (⟨ha, hb⟩ | ⟨ha, hb⟩) <;> simp [Point.mk.injEq] at ha hb <;> omega
    rw [if_neg hc1, if_neg hc2, if_neg hc3]

/-- C6 witness: an interior segment at (2, 2) whose previous neighbour
sits below it and whose next neighbour sits to its right is drawn with
the '╔' corner. -/
theorem snake_symbol_spec_witness :
    snakeSymbol (some ⟨2, 3⟩) (some ⟨3, 2⟩) ⟨2, 2⟩ = some '╔' := by
  exact (snake_symbol_spec ⟨2, 2⟩ ⟨2, 3⟩ ⟨3, 2⟩ (by decide) (by decide)).2.2.2.2.2.2.1
    (Or.inl ⟨rfl, rfl⟩)
